import Mathlib

/-!
Verification of the request authentication and throttling pipeline of this
repository against its design document.

The rate limiter is embedded from src/04-week-4/4.4-middlewares.js (the
ride1 middleware, threshold 1, with the setInterval table clear) and from
the parameterised rateLimiter factory in src/unnamed/part_008.  The
credential resolver, token verifier and principal lookup are embedded from
the authenticateToken middleware in src/06-week-6/6.1-http-deepdive.js.
-/

namespace RateLimit

/-- The shared counter table, one integer count per key, absent keys read
as 0.  This embeds the plain object used as a map in the source
(numberOfRide1Requests in 4.4-middlewares.js, requests in part_008). -/
structure LimiterState where
  counts : String → Nat

/-- The table right after the wholesale clear performed by the setInterval
callback in 4.4-middlewares.js (and the initial table). -/
def emptyState : LimiterState := ⟨fun _ => 0⟩

/-- One call of the limiter middleware for a key.  Both sources first
increment the key's count and then compare it against the maximum:
counts[k] = (counts[k] or 0) + 1; reject when counts[k] > max, admit
otherwise.  In 4.4-middlewares.js the maximum is the literal 1; in the
part_008 rateLimiter factory it is the maxRequests parameter.  Returns
the admission decision and the updated table. -/
def step (max : Nat) (s : LimiterState) (key : String) : Bool × LimiterState :=
  let n := s.counts key + 1
  let s' : LimiterState := ⟨fun k => if k = key then n else s.counts k⟩
  (decide (n ≤ max), s')

/-- Property keys of a JavaScript object are strings: indexing the table
with the value of req.headers with key user-id coerces a missing header
(undefined) to the string key undefined, as line 13 of
4.4-middlewares.js does. -/
def jsKey : Option String → String
  | none => "undefined"
  | some s => s

/-- The ride1 middleware of 4.4-middlewares.js, lines 11-18: key the table
by the user-id request header (coerced as JavaScript does) with the
hard-coded maximum 1. -/
def ride1Middleware (s : LimiterState) (userIdHeader : Option String) :
    Bool × LimiterState :=
  step 1 s (jsKey userIdHeader)

/-- A burst of k consecutive calls for the same key within one window (no
table clear in between).  Returns the list of admission decisions in
order and the final table. -/
def runSeq (max : Nat) (s : LimiterState) (key : String) : Nat → List Bool × LimiterState
  | 0 => ([], s)
  | k + 1 =>
    let r := step max s key
    let rest := runSeq max r.2 key k
    (r.1 :: rest.1, rest.2)

end RateLimit

namespace HttpDeepdive

/-- Decoded token payload: jwt.sign is called with a username claim and an
expiresIn option, so the decoded object carries the username and the exp
instant (seconds). -/
structure Claims where
  username : String
  exp : Nat
deriving DecidableEq, Repr

/-- An entry of the in-memory users array (pushed by the signup route). -/
structure User where
  username : String
  password : String
deriving DecidableEq, Repr

/-- The slice of an incoming request that authenticateToken reads: the
token cookie, the Authorization header, the x-auth-token header and the
token query parameter; none models an absent field. -/
structure Request where
  cookieToken : Option String
  authorization : Option String
  xAuthToken : Option String
  queryToken : Option String
deriving DecidableEq, Repr

/-- JavaScript truthiness of an optional string: undefined and the empty
string are falsy. -/
def truthy : Option String → Bool
  | none => false
  | some s => !s.isEmpty

/-- The split of a character list at every space, as the JavaScript
string split method does (consecutive separators produce empty
fields). -/
def jsSplitSpace : List Char → List (List Char)
  | [] => [[]]
  | c :: rest =>
    let r := jsSplitSpace rest
    if c = ' ' then [] :: r
    else (c :: r.headD []) :: r.tail

/-- Element 1 of authorization.split at space, line 42: the second
space-separated field of the header (empty when the split has no second
field). -/
def splitSecond (s : String) : String :=
  ((jsSplitSpace s.data).map List.asString).getD 1 ""

/-- Does the header value start with the seven characters Bearer plus a
space, as the guard of line 41 tests. -/
def startsWithBearer (s : String) : Bool :=
  s.data.take 7 = "Bearer ".data

/-- Guard of the Authorization branch, line 41: the header is present and
starts with Bearer plus a space (optional chaining makes an absent header
fail the guard). -/
def bearerGuard (req : Request) : Bool :=
  match req.authorization with
  | some a => startsWithBearer a
  | none => false

/-- The token variable after the else-if chain of lines 34-51: cookie,
then Authorization split at spaces taking element 1, then x-auth-token,
then query parameter; none when no guard fired (token stays null). -/
def assignedToken (req : Request) : Option String :=
  if truthy req.cookieToken then req.cookieToken
  else if bearerGuard req then some (splitSecond (req.authorization.getD ""))
  else if truthy req.xAuthToken then req.xAuthToken
  else if truthy req.queryToken then req.queryToken
  else none

/-- The resolver's final answer after the falsiness test of line 54: an
assigned token that is the empty string is treated the same as no token
at all. -/
def resolvedToken (req : Request) : Option String :=
  match assignedToken req with
  | none => none
  | some t => if t.isEmpty then none else some t

/-- The four candidate values in the priority order as the design
document words it: the named cookie, the Authorization header's value
after the Bearer marker, the custom x-auth-token header, and the token
query parameter; an absent source contributes the empty string. -/
def candidates (req : Request) : List String :=
  [ req.cookieToken.getD ""
  , if bearerGuard req then splitSecond (req.authorization.getD "") else ""
  , req.xAuthToken.getD ""
  , req.queryToken.getD "" ]

/-- The resolution rule exactly as the design document states it: the
first non-empty candidate found probing the sources in the fixed
priority order. -/
def specFirstNonEmpty (req : Request) : Option String :=
  (candidates req).find? (fun s => !s.isEmpty)

/-- Tag naming the transport a candidate token came from. -/
inductive Source where
  | cookie
  | bearerHeader
  | customHeader
  | queryParam
deriving DecidableEq, Repr

/-- Presence test of each source in the fixed priority order, exactly the
guards of the else-if chain of lines 37-51: the first source whose guard
passes wins, independently of what it extracts. -/
def presentSource (req : Request) : Option Source :=
  if truthy req.cookieToken then some .cookie
  else if bearerGuard req then some .bearerHeader
  else if truthy req.xAuthToken then some .customHeader
  else if truthy req.queryToken then some .queryParam
  else none

/-- The value each source extracts once selected. -/
def extractFrom (req : Request) : Source → String
  | .cookie => req.cookieToken.getD ""
  | .bearerHeader => splitSecond (req.authorization.getD "")
  | .customHeader => req.xAuthToken.getD ""
  | .queryParam => req.queryToken.getD ""

/-- Amended resolution rule: the first PRESENT source is selected (its
guard is tested before its value is extracted) and its extracted value is
returned; when that value is empty no token is resolved and later sources
are not consulted. -/
def amendedResolve (req : Request) : Option String :=
  match presentSource req with
  | none => none
  | some src =>
    if (extractFrom req src).isEmpty then none else some (extractFrom req src)

/-- A candidate token as the verifier sees it.  Modelled from the spec:
the jsonwebtoken library used at line 63 is not part of this repository,
so a token is either structurally invalid (fails to parse as a JWT) or a
payload together with the secret whose HMAC signs it. -/
inductive TokenRepr where
  | malformedTok
  | signed (payload : Claims) (signedWith : String)
deriving DecidableEq, Repr

/-- Failure kinds thrown by jwt.verify, identified by the name property
the catch block of line 75 inspects. -/
inductive JwtError where
  | tokenExpiredErr
  | jsonWebTokenErr
deriving DecidableEq, Repr

/-- Modelled from the spec: behaviour of jwt.verify of the jsonwebtoken
library.  The signature is checked before the expiry claim, so a token
signed with the wrong secret fails as a JsonWebTokenError regardless of
its expiry, and a correctly signed token whose exp is at or before the
current time fails as a TokenExpiredError. -/
def jwtVerify (t : TokenRepr) (secret : String) (now : Nat) :
    Except JwtError Claims :=
  match t with
  | .malformedTok => .error .jsonWebTokenErr
  | .signed payload signedWith =>
    if signedWith ≠ secret then .error .jsonWebTokenErr
    else if payload.exp ≤ now then .error .tokenExpiredErr
    else .ok payload

/-- An exception reaching the catch block of line 74: either a jwt.verify
failure or an exception raised by the user store during the lookup of
line 64 (the lookup sits inside the same try block). -/
inductive JsError where
  | jwt (e : JwtError)
  | storeFailure (msg : String)
deriving DecidableEq, Repr

/-- The name property the catch block compares against the string
TokenExpiredError. -/
def errorName : JsError → String
  | .jwt .tokenExpiredErr => "TokenExpiredError"
  | .jwt .jsonWebTokenErr => "JsonWebTokenError"
  | .storeFailure _ => "Error"

/-- Outcome of one run of the middleware (and, for rateLimited, of the
throttling stage), one constructor per response the source can send plus
admission. -/
inductive Outcome where
  | noCredential
  | tokenExpired
  | invalidToken
  | userNotFound
  | rateLimited
  | admitted
deriving DecidableEq, Repr

/-- The response message each rejection carries in the source (lines
54-58, 67, 76, 78 of 6.1-http-deepdive.js; line 15 of
4.4-middlewares.js); admission sends no rejection message. -/
def responseMessage : Outcome → Option String
  | .noCredential => some "Authentication required. No token provided."
  | .tokenExpired => some "Token expired"
  | .invalidToken => some "Invalid token"
  | .userNotFound => some "User not found"
  | .rateLimited => some "You have made too many requests to ride1"
  | .admitted => none

/-- The catch block of lines 74-79: an error whose name is
TokenExpiredError is reported as Token expired, every other caught error
as Invalid token. -/
def catchOutcome (e : JsError) : Outcome :=
  if errorName e = "TokenExpiredError" then .tokenExpired else .invalidToken

/-- Verification slice of authenticateToken (lines 62-79): jwt.verify
inside the try, with the catch mapping applied to a failure and a token
that verifies admitted onward. -/
def classify (secret : String) (now : Nat) (t : TokenRepr) : Outcome :=
  match jwtVerify t secret now with
  | .ok _ => .admitted
  | .error e => catchOutcome (.jwt e)

/-- Answer of the user store to a find-by-username call: a result (the
user, or none when no record matches) or a raised exception.  The store
the source actually uses is the in-memory users array, which never
raises; the exception constructor is modelled from the spec, which treats
the store as an external collaborator that can fail. -/
inductive StoreResult where
  | ok (u : Option User)
  | err (msg : String)
deriving DecidableEq, Repr

/-- The store the source uses at line 64: users.find on the in-memory
array, comparing usernames; it never raises. -/
def arrayStore (users : List User) : String → StoreResult :=
  fun name => .ok (users.find? (fun u => u.username == name))

/-- The per-request attachment point: the code sets req.user (line 71)
and req.tokenData (line 72); rawToken records whether any stage ever
attaches the raw token string itself (the code never does). -/
structure ReqContext where
  user : Option User
  tokenData : Option Claims
  rawToken : Option String
deriving DecidableEq, Repr

/-- A fresh per-request context with nothing attached. -/
def emptyContext : ReqContext := ⟨none, none, none⟩

/-- Pipeline stages, for recording which stages a request actually
reached. -/
inductive Stage where
  | resolver
  | verifier
  | lookupStage
  | limiter
deriving DecidableEq, Repr

/-- The authenticateToken middleware, lines 33-80, instrumented with the
list of stages the request reached.  Control flow follows the source: the
resolver's falsiness test first (line 54), then jwt.verify, then the
users lookup, with the try/catch flattened by applying the catch mapping
at each raise site (jwt.verify failures and store exceptions land in the
same catch).  On success, user and tokenData are attached to the
context. -/
def authenticateToken (store : String → StoreResult)
    (parse : String → TokenRepr) (secret : String) (now : Nat)
    (req : Request) (ctx : ReqContext) : Outcome × ReqContext × List Stage :=
  match resolvedToken req with
  | none => (.noCredential, ctx, [.resolver])
  | some tStr =>
    match jwtVerify (parse tStr) secret now with
    | .error e => (catchOutcome (.jwt e), ctx, [.resolver, .verifier])
    | .ok decoded =>
      match store decoded.username with
      | .err m =>
        (catchOutcome (.storeFailure m), ctx, [.resolver, .verifier, .lookupStage])
      | .ok none => (.userNotFound, ctx, [.resolver, .verifier, .lookupStage])
      | .ok (some u) =>
        (.admitted, { ctx with user := some u, tokenData := some decoded },
          [.resolver, .verifier, .lookupStage])

/-- Modelled from the spec: the Chain Executor composing the four stages
in the order Credential Resolver, Token Verifier, Principal Lookup, Rate
Limiter (no single source file composes all four; the first three are
authenticateToken of 6.1-http-deepdive.js, the limiter is the counter
middleware of 4.4-middlewares.js keyed by the verified principal's
identifier).  A stage that rejects ends the run: later stages are not
reached and do not appear in the stage list. -/
def pipeline (store : String → StoreResult) (parse : String → TokenRepr)
    (secret : String) (now : Nat) (max : Nat) (ls : RateLimit.LimiterState)
    (req : Request) (ctx : ReqContext) :
    Outcome × ReqContext × RateLimit.LimiterState × List Stage :=
  match authenticateToken store parse secret now req ctx with
  | (.admitted, ctx', tr) =>
    let key := match ctx'.user with
      | some u => u.username
      | none => "undefined"
    let lim := RateLimit.step max ls key
    ((if lim.1 then .admitted else .rateLimited), ctx', lim.2, tr ++ [.limiter])
  | (o, ctx', tr) => (o, ctx', ls, tr)

/-- The GET /me handler, lines 138-143: it reads both the attached
principal (req.user.username) and attached token-derived data
(req.tokenData.exp, scaled to milliseconds for the ISO date). -/
def meHandler (ctx : ReqContext) : Option (String × Nat) :=
  match ctx.user, ctx.tokenData with
  | some u, some d => some (u.username, d.exp * 1000)
  | _, _ => none

/-- Concrete fixture: a one-user users array as after one signup. -/
def demoUsers : List User := [⟨"u1", "pw"⟩]

/-- Concrete fixture: a decoded payload for user u1 expiring at 100. -/
def demoClaims : Claims := ⟨"u1", 100⟩

/-- Concrete fixture: a parse under which every candidate string is the
u1 token correctly signed with the secret sec. -/
def demoParse : String → TokenRepr := fun _ => .signed demoClaims "sec"

/-- Concrete fixture: a request carrying only the token cookie. -/
def cookieReq : Request := ⟨some "tok", none, none, none⟩

/-- Concrete fixture: a request carrying no credential at all. -/
def bareReq : Request := ⟨none, none, none, none⟩

end HttpDeepdive

namespace ErrorStage

/-- The error-handling middleware of 4.4-middlewares.js lines 41-43:
respond 500 with a JSON body carrying err.message.  Returns the status
and the error field of the body. -/
def errorHandler44 (errMessage : String) : Nat × String :=
  (500, errMessage)

/-- The error-handling middleware of part_008 lines 74-77: console.error
the message server-side, then respond 500 with the fixed body Internal
server error.  Returns the response (status and error field) and the
server-side log lines produced. -/
def errorHandler008 (errMessage : String) : (Nat × String) × List String :=
  ((500, "Internal server error"), ["Error: " ++ errMessage])

end ErrorStage

namespace RateLimit

theorem step_counts_self (max : Nat) (s : LimiterState) (key : String) :
    ((step max s key).2).counts key = s.counts key + 1 := by
  simp [step]

theorem step_counts_other (max : Nat) (s : LimiterState) (key k : String)
    (h : k ≠ key) : ((step max s key).2).counts k = s.counts k := by
  simp [step, h]

theorem step_decision (max : Nat) (s : LimiterState) (key : String) :
    (step max s key).1 = decide (s.counts key + 1 ≤ max) := rfl

theorem runSeq_decisions (max : Nat) (key : String) :
    ∀ (k : Nat) (s : LimiterState),
      (runSeq max s key k).1
        = (List.range k).map (fun i => decide (s.counts key + i + 1 ≤ max)) := by
  intro k
  induction k with
  | zero => intro s; simp [runSeq]
  | succ n ih =>
    intro s
    have hrange : List.range (n + 1) = 0 :: (List.range n).map Nat.succ :=
      List.range_succ_eq_map n
    simp only [runSeq, ih, hrange, List.map_cons, List.map_map]
    congr 1
    simp only [step, eq_self_iff_true, if_true]
    simp only [List.map_inj_left, Function.comp_apply, decide_eq_decide]
    intro a _
    omega

theorem runSeq_counts (max : Nat) (key : String) :
    ∀ (k : Nat) (s : LimiterState),
      ((runSeq max s key k).2).counts key = s.counts key + k := by
  intro k
  induction k with
  | zero => intro s; simp [runSeq]
  | succ n ih =>
    intro s
    simp only [runSeq, ih, step_counts_self]
    omega

end RateLimit

namespace HttpDeepdive

theorem catchOutcome_jwtExpired :
    catchOutcome (.jwt .tokenExpiredErr) = .tokenExpired := rfl

theorem catchOutcome_jwtInvalid :
    catchOutcome (.jwt .jsonWebTokenErr) = .invalidToken := by
  simp [catchOutcome, errorName]

theorem catchOutcome_storeFailure (m : String) :
    catchOutcome (.storeFailure m) = .invalidToken := by
  simp [catchOutcome, errorName]

theorem catchOutcome_ne_admitted (e : JsError) :
    catchOutcome e ≠ .admitted := by
  unfold catchOutcome
  split <;> simp

end HttpDeepdive

/-- C3: for every principal and window maximum N at least 1, a burst of
N+1 requests from that principal within one window has its first N
requests admitted and its last request rejected; and after the window
timer clears the table, the next request from that principal is admitted
and its counter restarts at 1. -/
theorem rate_limit_window_boundary (N : Nat) (p : String)
    (s : RateLimit.LimiterState) (hfresh : s.counts p = 0) (hN : 1 ≤ N) :
    (RateLimit.runSeq N s p (N + 1)).1 = List.replicate N true ++ [false]
      ∧ (RateLimit.step N RateLimit.emptyState p).1 = true
      ∧ ((RateLimit.step N RateLimit.emptyState p).2).counts p = 1 := by
  refine ⟨?_, ?_, ?_⟩
  · rw [RateLimit.runSeq_decisions, List.range_succ, List.map_append]
    congr 1
    · apply List.eq_replicate_iff.mpr
      refine ⟨by simp, ?_⟩
      intro b hb
      simp only [List.mem_map, List.mem_range] at hb
      obtain ⟨i, hi, rfl⟩ := hb
      simp only [decide_eq_true_eq, hfresh]
      omega
    · simp only [List.map_cons, List.map_nil, hfresh]
      congr 1
      simp only [decide_eq_false_iff_not]
      omega
  · simp [RateLimit.step, RateLimit.emptyState]
    omega
  · simp [RateLimit.step, RateLimit.emptyState]

/-- Witness for C3 at N = 2, principal u1, the freshly cleared table. -/
theorem rate_limit_window_boundary_witness :
    RateLimit.emptyState.counts "u1" = 0 ∧ 1 ≤ 2
      ∧ ((RateLimit.runSeq 2 RateLimit.emptyState "u1" 3).1
            = List.replicate 2 true ++ [false]
          ∧ (RateLimit.step 2 RateLimit.emptyState "u1").1 = true
          ∧ ((RateLimit.step 2 RateLimit.emptyState "u1").2).counts "u1" = 1) :=
  ⟨rfl, by decide,
    rate_limit_window_boundary 2 "u1" RateLimit.emptyState rfl (by decide)⟩

/-- C4 counterexample: with maximum 1 and the u1 counter already at the
maximum, the next call is rejected yet the counter moves from 1 to 2 —
the source increments before checking, so a rejected request does not
leave the counter unchanged. -/
theorem rate_limit_reject_increments_cex :
    ((RateLimit.step 1 RateLimit.emptyState "u1").2).counts "u1" = 1
      ∧ (RateLimit.step 1 ((RateLimit.step 1 RateLimit.emptyState "u1").2)
          "u1").1 = false
      ∧ ((RateLimit.step 1 ((RateLimit.step 1 RateLimit.emptyState "u1").2)
          "u1").2).counts "u1" = 2 := by
  refine ⟨by decide, by decide, by decide⟩

/-- C4 amended: for every call where the principal's counter is already
at or above the configured maximum, the call rejects the request but
still increments the counter: the count records every request in the
window, rejected ones included. -/
theorem rate_limit_reject_still_increments (max : Nat)
    (s : RateLimit.LimiterState) (key : String) (h : max ≤ s.counts key) :
    (RateLimit.step max s key).1 = false
      ∧ ((RateLimit.step max s key).2).counts key = s.counts key + 1 := by
  constructor
  · simp only [RateLimit.step_decision, decide_eq_false_iff_not]
    omega
  · exact RateLimit.step_counts_self max s key

/-- Witness for C4 amended with maximum 1 and the u1 counter at 1. -/
theorem rate_limit_reject_still_increments_witness :
    1 ≤ ((RateLimit.step 1 RateLimit.emptyState "u1").2).counts "u1"
      ∧ ((RateLimit.step 1 ((RateLimit.step 1 RateLimit.emptyState "u1").2)
            "u1").1 = false
          ∧ ((RateLimit.step 1 ((RateLimit.step 1 RateLimit.emptyState
              "u1").2) "u1").2).counts "u1"
            = ((RateLimit.step 1 RateLimit.emptyState "u1").2).counts "u1"
                + 1) :=
  ⟨by decide,
    rate_limit_reject_still_increments 1
      ((RateLimit.step 1 RateLimit.emptyState "u1").2) "u1" (by decide)⟩

/-- C9: a limiter call for one principal leaves every other principal's
counter unchanged, and its admission decision is a function of the
calling principal's own count alone. -/
theorem rate_limit_principal_isolation (max : Nat)
    (s : RateLimit.LimiterState) (p q : String) (h : p ≠ q) :
    ((RateLimit.step max s p).2).counts q = s.counts q
      ∧ (RateLimit.step max s p).1 = decide (s.counts p + 1 ≤ max) :=
  ⟨RateLimit.step_counts_other max s p q (Ne.symm h),
    RateLimit.step_decision max s p⟩

/-- Witness for C9 with principals u1 and u2 and maximum 5. -/
theorem rate_limit_principal_isolation_witness :
    ("u1" : String) ≠ "u2"
      ∧ (((RateLimit.step 5 RateLimit.emptyState "u1").2).counts "u2"
            = RateLimit.emptyState.counts "u2"
          ∧ (RateLimit.step 5 RateLimit.emptyState "u1").1
            = decide (RateLimit.emptyState.counts "u1" + 1 ≤ 5)) :=
  ⟨by decide,
    rate_limit_principal_isolation 5 RateLimit.emptyState "u1" "u2"
      (by decide)⟩

/-- C10: every request lacking the user-id header is counted under the
single key the missing header coerces to, so with maximum 1 the second
header-less request within the window is rejected even though it is a
distinct request. -/
theorem rate_limit_missing_header_shared_key (h₁ h₂ : Option String)
    (e₁ : h₁ = none) (e₂ : h₂ = none) :
    RateLimit.jsKey h₁ = RateLimit.jsKey h₂
      ∧ (RateLimit.ride1Middleware RateLimit.emptyState h₁).1 = true
      ∧ (RateLimit.ride1Middleware
          ((RateLimit.ride1Middleware RateLimit.emptyState h₁).2) h₂).1
        = false := by
  subst e₁; subst e₂
  exact ⟨rfl, by decide, by decide⟩

/-- Witness for C10 with two requests both lacking the user-id header. -/
theorem rate_limit_missing_header_shared_key_witness :
    (none : Option String) = none ∧ (none : Option String) = none
      ∧ (RateLimit.jsKey none = RateLimit.jsKey none
          ∧ (RateLimit.ride1Middleware RateLimit.emptyState none).1 = true
          ∧ (RateLimit.ride1Middleware
              ((RateLimit.ride1Middleware RateLimit.emptyState none).2)
              none).1 = false) :=
  ⟨rfl, rfl, rate_limit_missing_header_shared_key none none rfl rfl⟩

/-- C1 counterexample: for the request with no cookie, Authorization
header exactly Bearer followed by a space (so its extracted value is
empty) and a non-empty x-auth-token abc, the first non-empty candidate in
priority order is abc, but the code resolves no token at all: the else-if
chain selects the Authorization source on its guard alone and never falls
through to the later sources. -/
theorem resolver_not_first_nonempty_cex :
    HttpDeepdive.resolvedToken ⟨none, some "Bearer ", some "abc", none⟩ = none
      ∧ HttpDeepdive.specFirstNonEmpty ⟨none, some "Bearer ", some "abc", none⟩
        = some "abc"
      ∧ (none : Option String) ≠ some "abc" :=
  ⟨by decide, by decide, by simp⟩

/-- C1 amended: the resolver selects the first source whose presence
guard passes, in the fixed priority order cookie, Bearer header, custom
header, query parameter, and returns that source's extracted value (no
token when the extracted value is empty, with no fall-through to later
sources); in particular, for every request carrying both a non-empty
cookie token and a bearer-header token, the cookie token is the one
selected. -/
theorem resolver_presence_priority :
    (∀ req : HttpDeepdive.Request,
        HttpDeepdive.resolvedToken req = HttpDeepdive.amendedResolve req)
      ∧ (∀ (req : HttpDeepdive.Request) (c : String),
          req.cookieToken = some c → c ≠ "" →
          HttpDeepdive.resolvedToken req = some c) := by
  constructor
  · intro req
    obtain ⟨c, a, x, q⟩ := req
    cases c <;> cases a <;> cases x <;> cases q <;>
      simp [HttpDeepdive.resolvedToken, HttpDeepdive.assignedToken,
        HttpDeepdive.amendedResolve, HttpDeepdive.presentSource,
        HttpDeepdive.extractFrom, HttpDeepdive.truthy,
        HttpDeepdive.bearerGuard] <;>
      split_ifs <;> simp_all
  · intro req c hc hne
    have hemp : c.isEmpty = false := by
      cases hv : c.isEmpty with
      | false => rfl
      | true => exact absurd ((String.isEmpty_iff c).mp hv) hne
    have h1 : HttpDeepdive.truthy req.cookieToken = true := by
      rw [hc]
      simp [HttpDeepdive.truthy, hemp]
    simp [HttpDeepdive.resolvedToken, HttpDeepdive.assignedToken,
      HttpDeepdive.truthy, h1, hc, hemp]

/-- Witness for C1 amended at a request carrying both a cookie token and
a bearer-header token: the cookie wins. -/
theorem resolver_presence_priority_witness :
    (HttpDeepdive.resolvedToken
        ⟨some "cookieTok", some "Bearer headerTok", none, none⟩
      = HttpDeepdive.amendedResolve
          ⟨some "cookieTok", some "Bearer headerTok", none, none⟩)
      ∧ (HttpDeepdive.Request.cookieToken
            ⟨some "cookieTok", some "Bearer headerTok", none, none⟩
          = some "cookieTok")
      ∧ "cookieTok" ≠ ""
      ∧ HttpDeepdive.resolvedToken
          ⟨some "cookieTok", some "Bearer headerTok", none, none⟩
        = some "cookieTok" :=
  ⟨resolver_presence_priority.1
      ⟨some "cookieTok", some "Bearer headerTok", none, none⟩,
    rfl, by decide,
    resolver_presence_priority.2
      ⟨some "cookieTok", some "Bearer headerTok", none, none⟩ "cookieTok"
      rfl (by decide)⟩

/-- C2: a token signed with the correct secret whose expiry is in the
past classifies as expired (reported Token expired); a structurally
invalid token, or one signed with a wrong secret regardless of expiry,
classifies as invalid (reported Invalid token); the two classifications
and their reported messages are distinct. -/
theorem verifier_expiry_vs_malformed (payload : HttpDeepdive.Claims)
    (secret wrongSecret : String) (now : Nat) :
    (payload.exp < now →
        HttpDeepdive.classify secret now (.signed payload secret)
          = .tokenExpired)
      ∧ (wrongSecret ≠ secret →
          HttpDeepdive.classify secret now (.signed payload wrongSecret)
            = .invalidToken)
      ∧ HttpDeepdive.classify secret now .malformedTok = .invalidToken
      ∧ HttpDeepdive.Outcome.tokenExpired ≠ HttpDeepdive.Outcome.invalidToken
      ∧ HttpDeepdive.responseMessage .tokenExpired = some "Token expired"
      ∧ HttpDeepdive.responseMessage .invalidToken = some "Invalid token"
      ∧ ("Token expired" : String) ≠ "Invalid token" := by
  refine ⟨?_, ?_, ?_, by decide, rfl, rfl, by decide⟩
  · intro h
    simp [HttpDeepdive.classify, HttpDeepdive.jwtVerify, Nat.le_of_lt h,
      HttpDeepdive.catchOutcome_jwtExpired]
  · intro h
    simp [HttpDeepdive.classify, HttpDeepdive.jwtVerify, h,
      HttpDeepdive.catchOutcome_jwtInvalid]
  · simp [HttpDeepdive.classify, HttpDeepdive.jwtVerify,
      HttpDeepdive.catchOutcome_jwtInvalid]

/-- Witness for C2 at the u1 payload expiring at 100, secret sec, wrong
secret bad, current time 200. -/
theorem verifier_expiry_vs_malformed_witness :
    HttpDeepdive.demoClaims.exp < 200 ∧ ("bad" : String) ≠ "sec"
      ∧ (HttpDeepdive.classify "sec" 200
            (.signed HttpDeepdive.demoClaims "sec") = .tokenExpired
          ∧ HttpDeepdive.classify "sec" 200
              (.signed HttpDeepdive.demoClaims "bad") = .invalidToken
          ∧ HttpDeepdive.classify "sec" 200 .malformedTok = .invalidToken) := by
  have h := verifier_expiry_vs_malformed HttpDeepdive.demoClaims "sec" "bad" 200
  exact ⟨by decide, by decide,
    h.1 (by decide), h.2.1 (by decide), h.2.2.1⟩

/-- C5: when the resolver finds no candidate token, the whole pipeline
reports exactly the no-credential rejection and neither the verifier, the
lookup, nor the rate limiter ever runs: the stage list is exactly the
resolver alone, and the context and the counter table are untouched. -/
theorem no_credential_short_circuit (store : String → HttpDeepdive.StoreResult)
    (parse : String → HttpDeepdive.TokenRepr) (secret : String)
    (now max : Nat) (ls : RateLimit.LimiterState) (req : HttpDeepdive.Request)
    (ctx : HttpDeepdive.ReqContext)
    (h : HttpDeepdive.resolvedToken req = none) :
    HttpDeepdive.pipeline store parse secret now max ls req ctx
        = (.noCredential, ctx, ls, [.resolver])
      ∧ HttpDeepdive.Stage.verifier
          ∉ (HttpDeepdive.pipeline store parse secret now max ls req ctx).2.2.2
      ∧ HttpDeepdive.Stage.lookupStage
          ∉ (HttpDeepdive.pipeline store parse secret now max ls req ctx).2.2.2
      ∧ HttpDeepdive.Stage.limiter
          ∉ (HttpDeepdive.pipeline store parse secret now max ls req ctx).2.2.2 := by
  have hp : HttpDeepdive.pipeline store parse secret now max ls req ctx
      = (.noCredential, ctx, ls, [.resolver]) := by
    simp [HttpDeepdive.pipeline, HttpDeepdive.authenticateToken, h]
  refine ⟨hp, ?_, ?_, ?_⟩ <;> rw [hp] <;> simp

/-- Witness for C5 at the request carrying no credential at all. -/
theorem no_credential_short_circuit_witness :
    HttpDeepdive.resolvedToken HttpDeepdive.bareReq = none
      ∧ (HttpDeepdive.pipeline (fun _ => .ok none) HttpDeepdive.demoParse
            "sec" 0 1 RateLimit.emptyState HttpDeepdive.bareReq
            HttpDeepdive.emptyContext
          = (.noCredential, HttpDeepdive.emptyContext, RateLimit.emptyState,
              [.resolver])) :=
  ⟨rfl,
    (no_credential_short_circuit (fun _ => .ok none) HttpDeepdive.demoParse
        "sec" 0 1 RateLimit.emptyState HttpDeepdive.bareReq
        HttpDeepdive.emptyContext rfl).1⟩

/-- C6 counterexample: the error middleware of 4.4-middlewares.js puts
err.message itself into the client response body and writes nothing to
the server-side log, so the body is not a fixed generic message: it
differs between two different exceptions. -/
theorem error_stage_leaks_message_cex :
    ErrorStage.errorHandler44 "This is a test error"
        = (500, "This is a test error")
      ∧ (ErrorStage.errorHandler44 "This is a test error").2
          ≠ (ErrorStage.errorHandler44 "boom").2 :=
  ⟨rfl, by decide⟩

/-- C6 amended: the part_008 error middleware satisfies the claim — its
client body is the fixed generic Internal server error, independent of
the exception, while the exception message goes to the server-side log;
the 4.4-middlewares.js error middleware instead echoes the exception
message to the client. -/
theorem error_stage_generic_008 (m m' : String) :
    (ErrorStage.errorHandler008 m).1 = (500, "Internal server error")
      ∧ (ErrorStage.errorHandler008 m).1 = (ErrorStage.errorHandler008 m').1
      ∧ ("Error: " ++ m) ∈ (ErrorStage.errorHandler008 m).2 :=
  ⟨rfl, rfl, by simp [ErrorStage.errorHandler008]⟩

/-- C7 counterexample: a store that raises during lookup (here a timeout
on a correctly signed, unexpired token) is reported with the very same
Invalid token classification as a structurally invalid token, because the
lookup sits inside the verification try block and the catch does not
discriminate: no distinct lookup-failed classification exists. -/
theorem lookup_failure_merged_cex :
    (HttpDeepdive.authenticateToken (fun _ => .err "ETIMEDOUT")
          HttpDeepdive.demoParse "sec" 0 HttpDeepdive.cookieReq
          HttpDeepdive.emptyContext).1
        = .invalidToken
      ∧ (HttpDeepdive.authenticateToken
            (HttpDeepdive.arrayStore HttpDeepdive.demoUsers)
            (fun _ => .malformedTok) "sec" 0 HttpDeepdive.cookieReq
            HttpDeepdive.emptyContext).1
          = .invalidToken
      ∧ HttpDeepdive.responseMessage .invalidToken = some "Invalid token" :=
  ⟨by decide, by decide, rfl⟩

/-- C7 amended: a verified token whose principal has no record gets the
distinct User not found classification; but an error raised by the store
during lookup is caught by the verification catch and reported as
Invalid token — the very classification of a malformed token — so no
distinct lookup-failed classification exists. -/
theorem lookup_classifications (store : String → HttpDeepdive.StoreResult)
    (parse : String → HttpDeepdive.TokenRepr) (secret : String) (now : Nat)
    (req : HttpDeepdive.Request) (ctx : HttpDeepdive.ReqContext)
    (tStr : String) (d : HttpDeepdive.Claims)
    (ht : HttpDeepdive.resolvedToken req = some tStr)
    (hv : HttpDeepdive.jwtVerify (parse tStr) secret now = .ok d) :
    (store d.username = .ok none →
        (HttpDeepdive.authenticateToken store parse secret now req ctx).1
          = .userNotFound)
      ∧ (∀ m, store d.username = .err m →
          (HttpDeepdive.authenticateToken store parse secret now req ctx).1
            = .invalidToken)
      ∧ HttpDeepdive.Outcome.userNotFound ≠ .invalidToken
      ∧ HttpDeepdive.Outcome.userNotFound ≠ .tokenExpired := by
  refine ⟨?_, ?_, by decide, by decide⟩
  · intro hs
    simp [HttpDeepdive.authenticateToken, ht, hv, hs]
  · intro m hs
    simp [HttpDeepdive.authenticateToken, ht, hv, hs,
      HttpDeepdive.catchOutcome_storeFailure]

/-- Witness for C7 amended at a correctly signed unexpired token for u1
and a store that raises a timeout. -/
theorem lookup_classifications_witness :
    HttpDeepdive.resolvedToken HttpDeepdive.cookieReq = some "tok"
      ∧ HttpDeepdive.jwtVerify (HttpDeepdive.demoParse "tok") "sec" 0
          = .ok HttpDeepdive.demoClaims
      ∧ (((fun _ => HttpDeepdive.StoreResult.err "ETIMEDOUT")
              HttpDeepdive.demoClaims.username = .ok none →
            (HttpDeepdive.authenticateToken
                (fun _ => .err "ETIMEDOUT") HttpDeepdive.demoParse "sec" 0
                HttpDeepdive.cookieReq HttpDeepdive.emptyContext).1
              = .userNotFound)
          ∧ (∀ m, (fun _ => HttpDeepdive.StoreResult.err "ETIMEDOUT")
                HttpDeepdive.demoClaims.username = .err m →
              (HttpDeepdive.authenticateToken
                  (fun _ => .err "ETIMEDOUT") HttpDeepdive.demoParse "sec" 0
                  HttpDeepdive.cookieReq HttpDeepdive.emptyContext).1
                = .invalidToken)
          ∧ HttpDeepdive.Outcome.userNotFound ≠ .invalidToken
          ∧ HttpDeepdive.Outcome.userNotFound ≠ .tokenExpired) :=
  ⟨by decide, rfl,
    lookup_classifications (fun _ => .err "ETIMEDOUT") HttpDeepdive.demoParse
      "sec" 0 HttpDeepdive.cookieReq HttpDeepdive.emptyContext "tok"
      HttpDeepdive.demoClaims (by decide) rfl⟩

/-- C8 counterexample: after a successful run the context handed to the
handler carries not only the principal but also the decoded token claims
in tokenData, and the GET me handler actually reads that token-derived
expiry — so the context does not expose the verified principal and
nothing else. -/
theorem context_exposes_token_data_cex :
    ((HttpDeepdive.authenticateToken
          (HttpDeepdive.arrayStore HttpDeepdive.demoUsers)
          HttpDeepdive.demoParse "sec" 0 HttpDeepdive.cookieReq
          HttpDeepdive.emptyContext).2.1).tokenData
        = some HttpDeepdive.demoClaims
      ∧ some HttpDeepdive.demoClaims ≠ (none : Option HttpDeepdive.Claims)
      ∧ HttpDeepdive.meHandler
          ((HttpDeepdive.authenticateToken
              (HttpDeepdive.arrayStore HttpDeepdive.demoUsers)
              HttpDeepdive.demoParse "sec" 0 HttpDeepdive.cookieReq
              HttpDeepdive.emptyContext).2.1)
        = some ("u1", 100000) :=
  ⟨by decide, by decide, by decide⟩

/-- C8 amended: the context handed to the handler exposes the verified
principal and the decoded token claims (user and tokenData); the raw
token string itself is never attached. -/
theorem context_principal_and_claims (store : String → HttpDeepdive.StoreResult)
    (parse : String → HttpDeepdive.TokenRepr) (secret : String) (now : Nat)
    (req : HttpDeepdive.Request) (ctx : HttpDeepdive.ReqContext) :
    ((HttpDeepdive.authenticateToken store parse secret now req
          ctx).2.1).rawToken = ctx.rawToken
      ∧ ((HttpDeepdive.authenticateToken store parse secret now req ctx).1
            = .admitted →
          ∃ u d,
            ((HttpDeepdive.authenticateToken store parse secret now req
                ctx).2.1).user = some u
              ∧ ((HttpDeepdive.authenticateToken store parse secret now req
                  ctx).2.1).tokenData = some d) := by
  unfold HttpDeepdive.authenticateToken
  split
  · exact ⟨rfl, by simp⟩
  · split
    · refine ⟨rfl, fun hadm => absurd hadm ?_⟩
      simpa using HttpDeepdive.catchOutcome_ne_admitted _
    · split
      · refine ⟨rfl, fun hadm => absurd hadm ?_⟩
        simpa using HttpDeepdive.catchOutcome_ne_admitted _
      · exact ⟨rfl, by simp⟩
      · exact ⟨rfl, fun _ => ⟨_, _, rfl, rfl⟩⟩

/-- Witness for C8 amended at a successful authentication of u1. -/
theorem context_principal_and_claims_witness :
    ((HttpDeepdive.authenticateToken
          (HttpDeepdive.arrayStore HttpDeepdive.demoUsers)
          HttpDeepdive.demoParse "sec" 0 HttpDeepdive.cookieReq
          HttpDeepdive.emptyContext).2.1).rawToken
        = HttpDeepdive.emptyContext.rawToken
      ∧ (∃ u d,
          ((HttpDeepdive.authenticateToken
              (HttpDeepdive.arrayStore HttpDeepdive.demoUsers)
              HttpDeepdive.demoParse "sec" 0 HttpDeepdive.cookieReq
              HttpDeepdive.emptyContext).2.1).user = some u
            ∧ ((HttpDeepdive.authenticateToken
                (HttpDeepdive.arrayStore HttpDeepdive.demoUsers)
                HttpDeepdive.demoParse "sec" 0 HttpDeepdive.cookieReq
                HttpDeepdive.emptyContext).2.1).tokenData = some d) :=
  ⟨(context_principal_and_claims (HttpDeepdive.arrayStore HttpDeepdive.demoUsers)
      HttpDeepdive.demoParse "sec" 0 HttpDeepdive.cookieReq
      HttpDeepdive.emptyContext).1,
    (context_principal_and_claims (HttpDeepdive.arrayStore HttpDeepdive.demoUsers)
      HttpDeepdive.demoParse "sec" 0 HttpDeepdive.cookieReq
      HttpDeepdive.emptyContext).2 (by decide)⟩
